import Mathlib

/-!
Verification development for the c10 error-reporting layer of the repository
(source header: src/c10/util/Exception.h).

The header declares the Error class, its accessors, the if_empty_then helper,
the deprecation hook functions, and the AT_ERROR / AT_INTERNAL_ASSERT /
AT_CHECK / AT_ASSERT / AT_ASSERTM macros.  The implementation file
c10/util/Exception.cpp and the helpers from c10/util/StringUtil.h
(c10.str and the SourceLocation stream output) are not among the sources;
those parts are modelled from the specification and marked as such in their
doc comments.  Exceptions are modelled by returning the thrown Error value
(as an Option where a helper may also not throw).
-/

namespace c10

/-- SourceLocation: the immutable (function, file, line) triple stamped where a
failure occurred.  Declared in c10/util/StringUtil.h and treated by the spec as
an opaque, externally supplied value. -/
structure SourceLocation where
  function : String
  file : String
  line : Nat

/-- Modelled from the spec: the textual rendering of a SourceLocation used for
the trailing annotation of an error message, in the format
function at file:line (spec section 4.1 form 2 gives the composed shape
message (function at file:line)).  The stream output operator for
SourceLocation lives in c10/util/StringUtil.h, which is missing from the
sources. -/
def SourceLocation.render (l : SourceLocation) : String :=
  l.function ++ " at " ++ l.file ++ ":" ++ toString l.line

/-- An argument passed to the variadic message rendering helper: a string or a
number, rendered with the stream output operator. -/
inductive StrArg where
  | ofString (s : String)
  | ofNat (n : Nat)

/-- Modelled from the spec: rendering of one argument with the stream output
operator (numbers print in decimal). -/
def StrArg.render : StrArg → String
  | .ofString s => s
  | .ofNat n => toString n

/-- Modelled from the spec: c10.str from c10/util/StringUtil.h (missing from
the sources) renders each argument with the stream output operator and
concatenates the results with no separator; with no arguments it renders the
empty string. -/
def str (args : List StrArg) : String :=
  String.join (args.map StrArg.render)

/-- The primary error class from c10/util/Exception.h lines 28-83: the message
stack, the backtrace, the two cached derived message strings, and the opaque
caller tag.  Per the spec design notes the caller pointer is modelled as an
optional numeric identity, compared only for equality and never dereferenced. -/
structure Error where
  msg_stack_ : List String
  backtrace_ : String
  msg_ : String
  msg_without_backtrace_ : String
  caller_ : Option Nat

/-- Modelled from the spec: the join of the message stack, fragments rendering
in the order appended, earliest first, each fragment separated by a
newline-equivalent boundary (spec section 4.1, AppendMessage ordering
guarantee).  The joining code lives in the missing c10/util/Exception.cpp. -/
def joinStack : List String → String
  | [] => ""
  | [s] => s
  | s :: t :: rest => s ++ "\n" ++ joinStack (t :: rest)

/-- Modelled from the spec: Error.msg computes the full message, the backtrace
(when non-empty) followed by the joined message stack followed by nothing else
(spec section 4.1, message composition rule).  Declared at
c10/util/Exception.h line 63; defined in the missing c10/util/Exception.cpp.
Appending an empty backtrace in front is the identity, so the two cases of the
rule collapse into one concatenation. -/
def Error.msg (e : Error) : String :=
  e.backtrace_ ++ joinStack e.msg_stack_

/-- Modelled from the spec: Error.msg_without_backtrace is the joined message
stack only (spec section 4.1, message composition rule).  Declared at
c10/util/Exception.h line 64; defined in the missing c10/util/Exception.cpp. -/
def Error.msg_without_backtrace (e : Error) : String :=
  joinStack e.msg_stack_

/-- Modelled from the spec: Error construction form 1 from
(message, backtrace, caller): the message stack holds the single original
message, backtrace and caller are stored as given, and both derived message
fields are computed immediately from the stack and the backtrace
(spec section 4.1).  Declared at c10/util/Exception.h lines 46-49; the
constructor body lives in the missing c10/util/Exception.cpp. -/
def Error.create (m bt : String) (c : Option Nat) : Error :=
  { msg_stack_ := [m]
    backtrace_ := bt
    msg_ := bt ++ joinStack [m]
    msg_without_backtrace_ := joinStack [m]
    caller_ := c }

/-- Modelled from the spec: Error construction form 2 from
(source_location, message): the backtrace is empty, the caller absent, and the
location is folded into the stored message as a trailing annotation in the
format message (function at file:line); only the composed string form persists
(spec section 4.1 form 2).  Declared at c10/util/Exception.h line 50; the
constructor body lives in the missing c10/util/Exception.cpp. -/
def Error.createFromLocation (loc : SourceLocation) (m : String) : Error :=
  Error.create (m ++ " (" ++ loc.render ++ ")") "" none

/-- Modelled from the spec: Error construction form 3 from
(file, line, condition_text, message, backtrace, caller), used by the
invariant-assertion path: composes a single stored message that embeds the
failing condition text alongside the supplied message, with backtrace and
caller stored as in form 1 (spec section 4.1 form 3).  Declared at
c10/util/Exception.h lines 51-57; the constructor body lives in the missing
c10/util/Exception.cpp. -/
def Error.createFromCondition (file : String) (line : Nat)
    (condition m bt : String) (c : Option Nat) : Error :=
  Error.create (file ++ ":" ++ toString line ++ ": " ++ condition ++ ". " ++ m) bt c

/-- Modelled from the spec: AppendMessage pushes a fragment onto the end of the
message stack and recomputes both derived message fields; it never touches the
backtrace (spec section 4.1).  Declared at c10/util/Exception.h line 59; the
body lives in the missing c10/util/Exception.cpp. -/
def Error.AppendMessage (e : Error) (m : String) : Error :=
  { e with
    msg_stack_ := e.msg_stack_ ++ [m]
    msg_ := e.backtrace_ ++ joinStack (e.msg_stack_ ++ [m])
    msg_without_backtrace_ := joinStack (e.msg_stack_ ++ [m]) }

/-- Error.what from c10/util/Exception.h lines 71-73: returns the cached full
message string.  The body is inline in the header: it simply reads the cached
field and therefore cannot throw. -/
def Error.what (e : Error) : String :=
  e.msg_

/-- Error.what_without_backtrace from c10/util/Exception.h lines 80-82: returns
the cached backtrace-free message string, again by reading the cached field. -/
def Error.what_without_backtrace (e : Error) : String :=
  e.msg_without_backtrace_

/-- Error.caller from c10/util/Exception.h lines 75-77: returns the stored
opaque caller tag. -/
def Error.caller (e : Error) : Option Nat :=
  e.caller_

/-- Error.msg_stack from c10/util/Exception.h lines 66-68: returns the stored
message stack. -/
def Error.msg_stack (e : Error) : List String :=
  e.msg_stack_

/-- Errors reachable through the public construction and mutation surface: one
of the three constructor forms followed by any sequence of AppendMessage
calls. -/
inductive Reachable : Error → Prop where
  | create (m bt : String) (c : Option Nat) : Reachable (Error.create m bt c)
  | fromLocation (loc : SourceLocation) (m : String) :
      Reachable (Error.createFromLocation loc m)
  | fromCondition (file : String) (line : Nat) (condition m bt : String)
      (c : Option Nat) :
      Reachable (Error.createFromCondition file line condition m bt c)
  | append (e : Error) (m : String) : Reachable e → Reachable (e.AppendMessage m)

/-- if_empty_then from c10/util/Exception.h lines 135-141: return x if it is
non-empty; otherwise return y. -/
def if_empty_then (x y : String) : String :=
  if x.isEmpty then y else x

/-- deprecated_AT_ASSERT from c10/util/Exception.h line 124: an empty inline
function invoked by the AT_ASSERT macro purely so that a deprecation attribute
on it could surface a warning at call sites. -/
def deprecated_AT_ASSERT : Unit := ()

/-- deprecated_AT_ASSERTM from c10/util/Exception.h line 132: the analogous
empty hook invoked by the AT_ASSERTM macro. -/
def deprecated_AT_ASSERTM : Unit := ()

/-- Whether deprecated_AT_ASSERT carries an active deprecation attribute.  In
the source the C10_DEPRECATED_MESSAGE annotation at c10/util/Exception.h lines
118-123 is commented out, with the comment Deprecation disabled until we fix
sites in our codebase, so no compile-time deprecation warning is emitted. -/
def deprecated_AT_ASSERT_warning_enabled : Bool := false

/-- Whether deprecated_AT_ASSERTM carries an active deprecation attribute; the
annotation at c10/util/Exception.h lines 126-131 is likewise commented out. -/
def deprecated_AT_ASSERTM_warning_enabled : Bool := false

/-- AT_ERROR from c10/util/Exception.h lines 156-157: throws an Error built
from the captured call-site location and the rendered variadic message;
modelled as returning the Error it throws. -/
def AT_ERROR (loc : SourceLocation) (args : List StrArg) : Error :=
  Error.createFromLocation loc (str args)

/-- The message composed by AT_INTERNAL_ASSERT on failure
(c10/util/Exception.h lines 184-193): the condition text juxtaposed with the
ASSERT FAILED literal, the file and line, the bug-report request literal, and
the rendered extras. -/
def internalAssertMessage (condText : String) (file : String) (line : Nat)
    (extras : List StrArg) : String :=
  condText ++ " ASSERT FAILED at " ++ file ++ ":" ++ toString line ++
    ", please report a bug to PyTorch. " ++ str extras

/-- AT_INTERNAL_ASSERT from c10/util/Exception.h lines 184-193: when the
condition is false it throws via AT_ERROR with the composed assert message;
when the condition is true nothing happens and the extras are never rendered.
Modelled as returning the thrown Error as an Option.  The file and line
embedded in the message are those of the call site, identical to the ones in
the captured location. -/
def AT_INTERNAL_ASSERT (loc : SourceLocation) (cond : Bool) (condText : String)
    (extras : List StrArg) : Option Error :=
  if cond then none
  else some (AT_ERROR loc
    [.ofString (internalAssertMessage condText loc.file loc.line extras)])

/-- The fallback message generated by AT_CHECK when the caller supplies no
text, given as juxtaposed string literals in the source
(c10/util/Exception.h lines 220-222). -/
def checkFallback (condText : String) : String :=
  "Expected " ++ condText ++ " to be true, but got false. " ++
    "(Could this error message be improved?  If so, please report an " ++
    "enhancement request to PyTorch.)"

/-- The message selected by AT_CHECK on failure (c10/util/Exception.h lines
217-224): the rendered extras if non-empty, else the generated fallback. -/
def checkMessage (condText : String) (extras : List StrArg) : String :=
  if_empty_then (str extras) (checkFallback condText)

/-- AT_CHECK from c10/util/Exception.h lines 215-225: when the condition is
false it throws via AT_ERROR with the selected message; when the condition is
true nothing happens and the extras are never rendered.  Modelled as returning
the thrown Error as an Option. -/
def AT_CHECK (loc : SourceLocation) (cond : Bool) (condText : String)
    (extras : List StrArg) : Option Error :=
  if cond then none
  else some (AT_ERROR loc [.ofString (checkMessage condText extras)])

/-- AT_ASSERT from c10/util/Exception.h lines 230-234: invokes the deprecation
hook, then behaves exactly as AT_INTERNAL_ASSERT with no extras. -/
def AT_ASSERT (loc : SourceLocation) (cond : Bool) (condText : String) :
    Option Error :=
  let _ := deprecated_AT_ASSERT
  AT_INTERNAL_ASSERT loc cond condText []

/-- AT_ASSERTM from c10/util/Exception.h lines 238-242: invokes the
deprecation hook, then behaves exactly as AT_INTERNAL_ASSERT with the given
extras. -/
def AT_ASSERTM (loc : SourceLocation) (cond : Bool) (condText : String)
    (extras : List StrArg) : Option Error :=
  let _ := deprecated_AT_ASSERTM
  AT_INTERNAL_ASSERT loc cond condText extras

/-- Substring containment: t occurs contiguously inside s. -/
def strContains (s t : String) : Prop :=
  t.data <:+: s.data

instance (s t : String) : Decidable (strContains s t) :=
  List.decidableInfix t.data s.data

end c10

namespace c10

theorem strContains_appendLeft (s : String) {t x : String} (h : strContains t x) :
    strContains (s ++ t) x := by
  unfold strContains at h ⊢
  rw [String.data_append]
  exact h.trans (List.suffix_append s.data t.data).isInfix

theorem strContains_appendRight (t : String) {s x : String} (h : strContains s x) :
    strContains (s ++ t) x := by
  unfold strContains at h ⊢
  rw [String.data_append]
  exact h.trans (List.prefix_append s.data t.data).isInfix

theorem strContains_refl (s : String) : strContains s s :=
  List.infix_refl s.data

theorem joinStack_append_two (l : List String) (a b : String) :
    ∃ p, joinStack (l ++ [a, b]) = p ++ a ++ "\n" ++ b := by
  induction l with
  | nil =>
      refine ⟨"", ?_⟩
      show a ++ "\n" ++ b = "" ++ a ++ "\n" ++ b
      rw [String.empty_append]
  | cons x xs ih =>
      obtain ⟨p, hp⟩ := ih
      cases xs with
      | nil =>
          refine ⟨x ++ "\n", ?_⟩
          show x ++ "\n" ++ (a ++ "\n" ++ b) = x ++ "\n" ++ a ++ "\n" ++ b
          simp [String.append_assoc]
      | cons y ys =>
          refine ⟨x ++ "\n" ++ p, ?_⟩
          have hstep : joinStack ((x :: y :: ys) ++ [a, b]) =
              x ++ "\n" ++ joinStack ((y :: ys) ++ [a, b]) := rfl
          rw [hstep, hp]
          simp [String.append_assoc]

set_option maxRecDepth 20000 in
theorem improve_phrase_in_fallback_literal :
    strContains "(Could this error message be improved?  If so, please report an "
      "Could this error message be improved?" := by
  decide

set_option maxRecDepth 20000 in
theorem bug_phrase_in_assert_literal :
    strContains ", please report a bug to PyTorch. " "please report a bug" := by
  decide

end c10

namespace c10

/-- Claim C1: for every Error, the full message equals the backtrace (when
non-empty) followed by the joined message stack and nothing else, and the
backtrace-free message equals the joined message stack only; consequently, for
every Error constructed (form 1) with message M and non-empty backtrace B whose
text is disjoint from M, the backtrace-free message contains M and does not
contain B, while the full message contains both M and B. -/
theorem error_message_composition :
    (∀ e : Error,
      e.msg = e.backtrace_ ++ joinStack e.msg_stack_ ∧
      e.msg_without_backtrace = joinStack e.msg_stack_) ∧
    (∀ (M B : String) (c : Option Nat), B ≠ "" → ¬ strContains M B →
      strContains (Error.create M B c).msg_without_backtrace_ M ∧
      ¬ strContains (Error.create M B c).msg_without_backtrace_ B ∧
      strContains (Error.create M B c).msg_ M ∧
      strContains (Error.create M B c).msg_ B) := by
  constructor
  · intro e
    exact ⟨rfl, rfl⟩
  · intro M B c hB hdisj
    refine ⟨?_, ?_, ?_, ?_⟩
    · exact strContains_refl M
    · exact hdisj
    · exact strContains_appendLeft B (strContains_refl M)
    · exact strContains_appendRight (joinStack [M]) (strContains_refl B)

/-- Witness for claim C1 at the concrete message bad and backtrace trace: . -/
theorem error_message_composition_witness :
    strContains (Error.create "bad" "trace:" none).msg_without_backtrace_ "bad" ∧
    ¬ strContains (Error.create "bad" "trace:" none).msg_without_backtrace_ "trace:" ∧
    strContains (Error.create "bad" "trace:" none).msg_ "bad" ∧
    strContains (Error.create "bad" "trace:" none).msg_ "trace:" :=
  error_message_composition.2 "bad" "trace:" none (by decide) (by decide)

/-- Claim C2: for every Error produced by any of the three construction forms,
the message stack is non-empty immediately after construction, the stored
fragment containing at least the original message, and the stack remains
non-empty after every subsequent AppendMessage call. -/
theorem message_stack_never_empty :
    (∀ e : Error, Reachable e → e.msg_stack_ ≠ []) ∧
    (∀ (m bt : String) (c : Option Nat),
      strContains (joinStack (Error.create m bt c).msg_stack_) m) ∧
    (∀ (loc : SourceLocation) (m : String),
      strContains (joinStack (Error.createFromLocation loc m).msg_stack_) m) ∧
    (∀ (file : String) (line : Nat) (condition m bt : String) (c : Option Nat),
      strContains
        (joinStack (Error.createFromCondition file line condition m bt c).msg_stack_)
        m) := by
  refine ⟨?_, ?_, ?_, ?_⟩
  · intro e h
    induction h with
    | create m bt c => simp [Error.create]
    | fromLocation loc m => simp [Error.createFromLocation, Error.create]
    | fromCondition file line condition m bt c =>
        simp [Error.createFromCondition, Error.create]
    | append e m h ih => simp [Error.AppendMessage]
  · intro m bt c
    exact strContains_refl m
  · intro loc m
    show strContains (m ++ " (" ++ loc.render ++ ")") m
    exact strContains_appendRight ")"
      (strContains_appendRight loc.render
        (strContains_appendRight " (" (strContains_refl m)))
  · intro file line condition m bt c
    show strContains
      (file ++ ":" ++ toString line ++ ": " ++ condition ++ ". " ++ m) m
    exact strContains_appendLeft
      (file ++ ":" ++ toString line ++ ": " ++ condition ++ ". ")
      (strContains_refl m)

/-- Witness for claim C2 at a concrete construction. -/
theorem message_stack_never_empty_witness :
    (Error.create "boom" "" none).msg_stack_ ≠ [] :=
  message_stack_never_empty.1 (Error.create "boom" "" none)
    (Reachable.create "boom" "" none)

end c10

namespace c10

/-- Claim C3: AT_CHECK invoked with a false condition and no extra text throws
an Error whose selected message contains the literal condition text and an
improvement-request phrase; invoked with a false condition and extra text
got 5, the selected message equals got 5 with the generated fallback
suppressed, and the thrown Error is built from exactly that text. -/
theorem at_check_message_selection :
    (∀ (loc : SourceLocation) (condText : String),
      AT_CHECK loc false condText [] =
        some (Error.createFromLocation loc (checkMessage condText [])) ∧
      strContains (checkMessage condText []) condText ∧
      strContains (checkMessage condText []) "Could this error message be improved?") ∧
    (∀ (loc : SourceLocation) (condText : String),
      checkMessage condText [.ofString "got 5"] = "got 5" ∧
      AT_CHECK loc false condText [.ofString "got 5"] =
        some (Error.createFromLocation loc "got 5")) := by
  constructor
  · intro loc condText
    refine ⟨rfl, ?_, ?_⟩
    · show strContains (checkFallback condText) condText
      exact strContains_appendRight "enhancement request to PyTorch.)"
        (strContains_appendRight
          "(Could this error message be improved?  If so, please report an "
          (strContains_appendRight " to be true, but got false. "
            (strContains_appendLeft "Expected " (strContains_refl condText))))
    · show strContains (checkFallback condText) "Could this error message be improved?"
      exact strContains_appendRight "enhancement request to PyTorch.)"
        (strContains_appendLeft
          ("Expected " ++ condText ++ " to be true, but got false. ")
          improve_phrase_in_fallback_literal)
  · intro loc condText
    exact ⟨rfl, rfl⟩

end c10

namespace c10

set_option maxRecDepth 40000 in
/-- Claim C4 counterexample: with extras exactly the two-character-and-equals
string x-space-equals (no trailing space) and the number 0, the stream
rendering concatenates with no separator and gives x-equals-0 without the
space before the digit, so it is not the claimed rendering, and the composed
assert message does not contain the claimed rendering. -/
theorem at_internal_assert_extras_counterexample :
    str [.ofString "x =", .ofNat 0] = "x =0" ∧
    "x =0" ≠ "x = 0" ∧
    ¬ strContains
      (internalAssertMessage "x == 0" "foo.cpp" 10 [.ofString "x =", .ofNat 0])
      "x = 0" := by
  refine ⟨by decide, by decide, by decide⟩

/-- Claim C4 (amended): AT_INTERNAL_ASSERT invoked with a false condition
throws an Error carrying the captured source location whose message contains
the condition text, the bug-report annotation, and the rendered extras, where
the extras from the usage example in the source, the string x-space-equals-
space (with its trailing space) and the number 0, render as x = 0; the extras
are optional and default to the empty rendering. -/
theorem at_internal_assert_message :
    (∀ (loc : SourceLocation) (condText : String) (extras : List StrArg),
      AT_INTERNAL_ASSERT loc false condText extras =
        some (Error.createFromLocation loc
          (internalAssertMessage condText loc.file loc.line extras)) ∧
      strContains (internalAssertMessage condText loc.file loc.line extras)
        condText ∧
      strContains (internalAssertMessage condText loc.file loc.line extras)
        "please report a bug") ∧
    str [.ofString "x = ", .ofNat 0] = "x = 0" ∧
    (∀ (loc : SourceLocation) (condText : String),
      strContains
        (internalAssertMessage condText loc.file loc.line
          [.ofString "x = ", .ofNat 0])
        "x = 0") ∧
    str [] = "" := by
  refine ⟨?_, rfl, ?_, rfl⟩
  · intro loc condText extras
    refine ⟨rfl, ?_, ?_⟩
    · show strContains
        (condText ++ " ASSERT FAILED at " ++ loc.file ++ ":" ++
          toString loc.line ++ ", please report a bug to PyTorch. " ++
          str extras)
        condText
      exact strContains_appendRight (str extras)
        (strContains_appendRight ", please report a bug to PyTorch. "
          (strContains_appendRight (toString loc.line)
            (strContains_appendRight ":"
              (strContains_appendRight loc.file
                (strContains_appendRight " ASSERT FAILED at "
                  (strContains_refl condText))))))
    · show strContains
        (condText ++ " ASSERT FAILED at " ++ loc.file ++ ":" ++
          toString loc.line ++ ", please report a bug to PyTorch. " ++
          str extras)
        "please report a bug"
      exact strContains_appendRight (str extras)
        (strContains_appendLeft
          (condText ++ " ASSERT FAILED at " ++ loc.file ++ ":" ++
            toString loc.line)
          bug_phrase_in_assert_literal)
  · intro loc condText
    show strContains
      (condText ++ " ASSERT FAILED at " ++ loc.file ++ ":" ++
        toString loc.line ++ ", please report a bug to PyTorch. " ++
        str [.ofString "x = ", .ofNat 0])
      "x = 0"
    exact strContains_appendLeft
      (condText ++ " ASSERT FAILED at " ++ loc.file ++ ":" ++
        toString loc.line ++ ", please report a bug to PyTorch. ")
      (strContains_refl "x = 0")

end c10

namespace c10

/-- Claim C5 counterexample: constructing via form 2 from the location
(foo, bar.ext, 42) and the message bad input, the message stack is not the
bare singleton list holding bad input: per the composition rule only the
string with the trailing location annotation folded in persists in the
stack. -/
theorem form2_stack_counterexample :
    (Error.createFromLocation ⟨"foo", "bar.ext", 42⟩ "bad input").msg_stack_ ≠
      ["bad input"] := by
  decide

/-- Claim C5 (amended): for every Error constructed via form 2 from a source
location and a message, the backtrace is empty, the message stack is a single
element holding the message with the trailing location annotation folded in,
the backtrace-free message equals exactly that annotated string, and no
backtrace segment is present (the full message coincides with the
backtrace-free one); at location (foo, bar.ext, 42) with message bad input the
backtrace-free message reads bad input (foo at bar.ext:42). -/
theorem form2_location_annotation :
    (∀ (loc : SourceLocation) (m : String),
      (Error.createFromLocation loc m).backtrace_ = "" ∧
      (Error.createFromLocation loc m).msg_stack_ =
        [m ++ " (" ++ loc.render ++ ")"] ∧
      (Error.createFromLocation loc m).msg_without_backtrace_ =
        m ++ " (" ++ loc.render ++ ")" ∧
      (Error.createFromLocation loc m).msg_ =
        (Error.createFromLocation loc m).msg_without_backtrace_) ∧
    (Error.createFromLocation ⟨"foo", "bar.ext", 42⟩ "bad input").msg_without_backtrace_ =
      "bad input (foo at bar.ext:42)" := by
  refine ⟨?_, by decide⟩
  intro loc m
  exact ⟨rfl, rfl, rfl, rfl⟩

/-- Claim C6: for every Error and all strings M1 and M2, appending M1 and then
M2 pushes the fragments onto the end of the message stack, so in the resulting
full message the content of M1 precedes the content of M2 positionally, and
neither call changes the stored backtrace. -/
theorem append_message_ordering :
    ∀ (e : Error) (M1 M2 : String),
      ((e.AppendMessage M1).AppendMessage M2).msg_stack_ =
        e.msg_stack_ ++ [M1, M2] ∧
      (∃ p, ((e.AppendMessage M1).AppendMessage M2).msg_ =
        p ++ M1 ++ "\n" ++ M2) ∧
      (e.AppendMessage M1).backtrace_ = e.backtrace_ ∧
      ((e.AppendMessage M1).AppendMessage M2).backtrace_ = e.backtrace_ := by
  intro e M1 M2
  have hstack : (e.msg_stack_ ++ [M1]) ++ [M2] = e.msg_stack_ ++ [M1, M2] := by
    simp
  refine ⟨?_, ?_, rfl, rfl⟩
  · show (e.msg_stack_ ++ [M1]) ++ [M2] = e.msg_stack_ ++ [M1, M2]
    exact hstack
  · obtain ⟨p, hp⟩ := joinStack_append_two e.msg_stack_ M1 M2
    refine ⟨e.backtrace_ ++ p, ?_⟩
    show e.backtrace_ ++ joinStack ((e.msg_stack_ ++ [M1]) ++ [M2]) =
      e.backtrace_ ++ p ++ M1 ++ "\n" ++ M2
    rw [hstack, hp]
    simp [String.append_assoc]

end c10

namespace c10

/-- Claim C7 counterexample: the deprecation annotations for the two legacy
assertion spellings are commented out in the source (the comment reads
Deprecation disabled until we fix sites in our codebase,
c10/util/Exception.h lines 118-132), so neither AT_ASSERT nor AT_ASSERTM
surfaces a deprecation notice at the call site. -/
theorem deprecated_alias_warning_counterexample :
    deprecated_AT_ASSERT_warning_enabled = false ∧
    deprecated_AT_ASSERTM_warning_enabled = false :=
  ⟨rfl, rfl⟩

/-- Claim C7 (amended): the two legacy spellings behave identically at runtime
to AT_INTERNAL_ASSERT for every condition and every set of extras (the
zero-argument form passing no extras); the deprecation hook functions they
invoke are no-ops, and the deprecation notice is currently disabled in the
source, so no compile-time warning is surfaced. -/
theorem deprecated_alias_equivalence :
    (∀ (loc : SourceLocation) (cond : Bool) (condText : String),
      AT_ASSERT loc cond condText = AT_INTERNAL_ASSERT loc cond condText []) ∧
    (∀ (loc : SourceLocation) (cond : Bool) (condText : String)
      (extras : List StrArg),
      AT_ASSERTM loc cond condText extras =
        AT_INTERNAL_ASSERT loc cond condText extras) ∧
    deprecated_AT_ASSERT = () ∧
    deprecated_AT_ASSERTM = () ∧
    deprecated_AT_ASSERT_warning_enabled = false ∧
    deprecated_AT_ASSERTM_warning_enabled = false :=
  ⟨fun _ _ _ => rfl, fun _ _ _ _ => rfl, rfl, rfl, rfl, rfl⟩

/-- Claim C8: for every reachable Error, the two accessors used at exception
handling sites are total functions returning the previously computed cached
strings, and those caches agree with the derived message functions of the
current state, so they are never stale and repeated calls return identical
strings from storage owned by the Error value. -/
theorem what_accessors_consistent :
    ∀ e : Error, Reachable e →
      e.what = e.msg_ ∧
      e.what_without_backtrace = e.msg_without_backtrace_ ∧
      e.what = e.msg ∧
      e.what_without_backtrace = e.msg_without_backtrace := by
  intro e h
  induction h with
  | create m bt c => exact ⟨rfl, rfl, rfl, rfl⟩
  | fromLocation loc m => exact ⟨rfl, rfl, rfl, rfl⟩
  | fromCondition file line condition m bt c => exact ⟨rfl, rfl, rfl, rfl⟩
  | append e m h ih => exact ⟨rfl, rfl, rfl, rfl⟩

/-- Witness for claim C8 at a concrete construction. -/
theorem what_accessors_consistent_witness :
    (Error.create "boom" "bt" none).what = (Error.create "boom" "bt" none).msg_ ∧
    (Error.create "boom" "bt" none).what_without_backtrace =
      (Error.create "boom" "bt" none).msg_without_backtrace_ ∧
    (Error.create "boom" "bt" none).what = (Error.create "boom" "bt" none).msg ∧
    (Error.create "boom" "bt" none).what_without_backtrace =
      (Error.create "boom" "bt" none).msg_without_backtrace :=
  what_accessors_consistent (Error.create "boom" "bt" none)
    (Reachable.create "boom" "bt" none)

/-- Claim C9: if_empty_then is a pure function returning its first argument
when that is non-empty and its second argument otherwise; in particular on the
empty string and fallback it returns fallback, and on x and fallback it
returns x. -/
theorem if_empty_then_spec :
    (∀ x y : String, if_empty_then x y = if x = "" then y else x) ∧
    if_empty_then "" "fallback" = "fallback" ∧
    if_empty_then "x" "fallback" = "x" := by
  refine ⟨?_, rfl, rfl⟩
  intro x y
  unfold if_empty_then
  by_cases h : x = ""
  · simp [h, String.isEmpty_iff]
  · simp [h, String.isEmpty_iff]

/-- Claim C10: the assertion helpers AT_INTERNAL_ASSERT, AT_CHECK, AT_ASSERT
and AT_ASSERTM throw exactly when their condition is false; when the condition
is true nothing is thrown, no Error is constructed, and the result does not
depend on the extra message arguments, which are never rendered. -/
theorem assert_throw_iff :
    ∀ (loc : SourceLocation) (condText : String) (extras : List StrArg),
      (∀ cond : Bool,
        (AT_INTERNAL_ASSERT loc cond condText extras).isSome = !cond ∧
        (AT_CHECK loc cond condText extras).isSome = !cond ∧
        (AT_ASSERT loc cond condText).isSome = !cond ∧
        (AT_ASSERTM loc cond condText extras).isSome = !cond) ∧
      (∀ extras2 : List StrArg,
        AT_INTERNAL_ASSERT loc true condText extras =
          AT_INTERNAL_ASSERT loc true condText extras2 ∧
        AT_CHECK loc true condText extras = AT_CHECK loc true condText extras2 ∧
        AT_ASSERTM loc true condText extras =
          AT_ASSERTM loc true condText extras2) ∧
      AT_INTERNAL_ASSERT loc true condText extras = none ∧
      AT_CHECK loc true condText extras = none := by
  intro loc condText extras
  refine ⟨?_, fun extras2 => ⟨rfl, rfl, rfl⟩, rfl, rfl⟩
  intro cond
  cases cond
  · exact ⟨rfl, rfl, rfl, rfl⟩
  · exact ⟨rfl, rfl, rfl, rfl⟩

end c10
